import Mathlib

/-!
Shallow embedding of the Pytorch-NCE2 pipeline language-model trainer
(src/model.py and src/main.py), with theorems settling the specification
claims about stage partitioning, loss masking, checkpoint promotion,
epoch synchronization, evaluation and error behaviour.

Tensors are embedded as nested lists of rationals.  The numeric bodies of
the differentiable stages (dropout, embedding, LSTM, linear projection,
NCE criterion) are treated as opaque function-valued fields, as the
specification treats them as opaque differentiable stage bodies.
-/

namespace PytorchNCE

/-- A [batch, time] tensor of scalars (for example a per-position loss). -/
abbrev Tensor2 := List (List ℚ)

/-- A [batch, time, hidden] activation tensor. -/
abbrev Tensor3 := List (List (List ℚ))

/-- A [batch, time] tensor of token ids. -/
abbrev TokenBatch := List (List ℕ)

/-- `t.size(1)`: the extent of the second (time) dimension of a tensor. -/
def size1 (x : List (List α)) : ℕ := (x.headD []).length

/-- `tensor.mean()`: arithmetic mean of a flat list of scalars. -/
def mean (xs : List ℚ) : ℚ := xs.sum / (xs.length : ℚ)

/-- Modelled from the spec: `utils.get_mask` (utils.py is not under src/).
Spec section 4.3: the validity mask is derived from per-example `length` over
the time dimension, `mask[i, t] = t < length[i]`, with `max_len` columns. -/
def get_mask (length : List ℕ) (max_len : ℕ) : List (List Bool) :=
  length.map (fun l => (List.range max_len).map (fun t => decide (t < l)))

/-- Row-wise core of `torch.masked_select`: keep the entries of the row whose
mask bit is true, in order. -/
def select_row : List ℚ → List Bool → List ℚ
  | [], _ => []
  | _ :: _, [] => []
  | x :: xs, b :: bs => if b then x :: select_row xs bs else select_row xs bs

/-- `torch.masked_select(loss, mask)` on a [batch, time] tensor: row-major
flattening keeps exactly the entries at mask-true positions, in order. -/
def masked_select : Tensor2 → List (List Bool) → List ℚ
  | [], _ => []
  | _ :: _, [] => []
  | r :: rs, m :: ms => select_row r m ++ masked_select rs ms

/-- `model.RNNModel` (src/model.py): the container's sub-modules.  `rnn`
returns the (output, hidden) pair of `nn.LSTM`; the hidden part is unused. -/
structure RNNModel where
  drop : Tensor3 → Tensor3
  encoder : TokenBatch → Tensor3
  rnn : Tensor3 → Tensor3 × Unit
  proj : Tensor3 → Tensor3
  criterion : TokenBatch → Tensor3 → Tensor2

/-- `RNNModel._rnn` (src/model.py lines 33-39): the encoder and recurrent
layer: `emb = drop(encoder(input)); output, _ = rnn(emb);
output = proj(output); output = drop(output)`. -/
def RNNModel.rnnBody (m : RNNModel) (input : TokenBatch) : Tensor3 :=
  let emb := m.drop (m.encoder input)
  let output := (m.rnn emb).1
  let projected := m.proj output
  m.drop projected

/-- `RNNModel.forward` (src/model.py lines 42-49): mask from the raw input's
time dimension, per-position criterion loss, masked selection, mean. -/
def RNNModel.forward (m : RNNModel) (input target : TokenBatch)
    (length : List ℕ) : ℚ :=
  let mask := get_mask length (size1 input)
  let rnn_output := m.rnnBody input
  let loss := m.criterion target rnn_output
  let selected := masked_select loss mask
  mean selected

/-- `Layer1.forward` (src/model.py lines 52-62): `drop(encoder(input))`. -/
def Layer1.forward (drop : Tensor3 → Tensor3) (encoder : TokenBatch → Tensor3)
    (input : TokenBatch) : Tensor3 :=
  drop (encoder input)

/-- `Layer3.forward` (src/model.py lines 65-73): the LSTM output, hidden
state discarded. -/
def Layer3.forward (rnn : Tensor3 → Tensor3 × Unit) (inp : Tensor3) : Tensor3 :=
  (rnn inp).1

/-- `Layer2.forward` (src/model.py lines 76-89): the terminal loss stage.
The mask's `max_len` is `input.size(1)` of the incoming activation. -/
def Layer2.forward (criterion : TokenBatch → Tensor3 → Tensor2)
    (input : Tensor3) (target : TokenBatch) (length : List ℕ) : ℚ :=
  let mask := get_mask length (size1 input)
  let rnn_output := input
  let loss := criterion target rnn_output
  let selected := masked_select loss mask
  mean selected

/-- Modelled from the spec: `pipeline_model.Pipeline` (pipeline_model.py is
not under src/) running with world_size 1 applies its stages sequentially in
order (spec section 4.2).  The stage list is the one built in
`RNNModel.__init__` (src/model.py lines 23-27):
`[Layer1(drop, encoder), Layer3(rnn), proj, Layer2(criterion)]`.
This is the activation after the three non-terminal stages. -/
def pipeline_activation (m : RNNModel) (input : TokenBatch) : Tensor3 :=
  m.proj (Layer3.forward m.rnn (Layer1.forward m.drop m.encoder input))

/-- Modelled from the spec: the world_size-1 pipeline run (spec section 4.2).
The terminal stage `Layer2` receives the activation together with the extra
outputs `(target, length)` and produces the scalar loss. -/
def pipelineRunW1 (m : RNNModel) (input target : TokenBatch)
    (length : List ℕ) : ℚ :=
  Layer2.forward m.criterion (pipeline_activation m input) target length

/-- Concrete embedding body: token id n becomes the single hidden value n. -/
def toyEncoder : TokenBatch → Tensor3 :=
  fun input => input.map (fun row => row.map (fun n => [(n : ℚ)]))

/-- Concrete recurrent body: identity, with a trivial hidden state. -/
def toyRnn : Tensor3 → Tensor3 × Unit := fun x => (x, ())

/-- Concrete criterion body: the per-position loss is the first hidden value
of the corresponding activation position. -/
def toyCriterion : TokenBatch → Tensor3 → Tensor2 :=
  fun _ out => out.map (fun row => row.map (fun h => h.headD 0))

/-- Concrete train-mode dropout realization: inverted dropout with keep
probability 1/2 and an all-keep Bernoulli draw scales every unit by 2. -/
def cexDrop : Tensor3 → Tensor3 :=
  fun x => x.map (fun row => row.map (fun h => h.map (fun q => q * 2)))

/-- Model instance whose dropout is not the identity (training mode). -/
def cexModel : RNNModel :=
  { drop := cexDrop, encoder := toyEncoder, rnn := toyRnn,
    proj := fun x => x, criterion := toyCriterion }

/-- Model instance with identity dropout (eval mode / dropout rate 0). -/
def evalModel : RNNModel :=
  { drop := fun x => x, encoder := toyEncoder, rnn := toyRnn,
    proj := fun x => x, criterion := toyCriterion }

/-- The mask of spec section 4.3 is a per-row prefix mask, so selection keeps,
from each loss row, the first `length[i]` of its first `max_len` entries. -/
def selected_prefixes : Tensor2 → List ℕ → ℕ → List ℚ
  | [], _, _ => []
  | _ :: _, [], _ => []
  | r :: rs, l :: ls, m => ((r.take m).take l) ++ selected_prefixes rs ls m

/-- A concrete 3 x 5 per-position loss tensor. -/
def demoLoss : Tensor2 :=
  [[0, 1, 2, 3, 4], [10, 11, 12, 13, 14], [20, 21, 22, 23, 24]]

/-- A concrete single loss row of length 5. -/
def demoRow : List ℚ := [10, 11, 12, 13, 14]

/-- The observable events of one `run_epoch` call
(src/main.py lines 197-225). -/
inductive Event where
  | train
  | barrier
  | save_raw
  | evaluate
  | broadcast
  | save_best
  deriving DecidableEq

/-- Whether the event writes a checkpoint fileset
(`model.save(model_path)` or `model.save(model_path + '.best')`). -/
def isCheckpointWrite : Event → Bool
  | Event.save_raw => true
  | Event.save_best => true
  | _ => false

/-- Result of one `run_epoch` call as one rank sees it: its event trace and
the updated `best_val_ppl`. -/
structure EpochOut where
  trace : List Event
  best : Option ℚ
  deriving DecidableEq

/-- The promotion condition of src/main.py line 221,
`if not best_val_ppl or val_ppl < best_val_ppl`, with Python truthiness:
`best_val_ppl` is `None` before the first epoch (promote unconditionally),
and a stored one-element tensor is falsy exactly when its value is zero. -/
def promoteCond (best_val_ppl : Option ℚ) (val_ppl : ℚ) : Bool :=
  match best_val_ppl with
  | none => true
  | some b => decide (b = 0) || decide (val_ppl < b)

/-- `run_epoch` (src/main.py lines 197-225) as seen by one rank: train,
collective barrier, unconditional raw checkpoint save
`model.save(model_path)`, evaluation on the terminal rank only, broadcast of
the validation score, then the best-checkpoint save exactly under
`promoteCond`.  `score` is the terminal rank's validation perplexity, which
after the broadcast is the value every rank decides on. -/
def run_epoch (world_size rank : ℕ) (score : ℚ)
    (best_val_ppl : Option ℚ) : EpochOut :=
  let promote := promoteCond best_val_ppl score
  { trace :=
      [Event.train, Event.barrier, Event.save_raw]
        ++ (if rank = world_size - 1 then [Event.evaluate] else [])
        ++ [Event.broadcast]
        ++ (if promote then [Event.save_best] else []),
    best := if promote then some score else best_val_ppl }

/-- Iterate `run_epoch` over a sequence of per-epoch validation scores,
recording for each epoch whether the `.best` fileset was written. -/
def best_updates (world_size rank : ℕ) : Option ℚ → List ℚ → List Bool
  | _, [] => []
  | best, v :: rest =>
    let out := run_epoch world_size rank v best
    decide (Event.save_best ∈ out.trace) :: best_updates world_size rank out.best rest

/-- Per-rank local `val_ppl` buffers before the broadcast (src/main.py lines
207-216): every rank initializes `torch.Tensor([1000])`; the terminal rank
overwrites its buffer with the evaluation result. -/
def val_ppl_pre (world_size : ℕ) (score : ℚ) : List ℚ :=
  (List.range world_size).map (fun r => if r = world_size - 1 then score else 1000)

/-- The `torch.distributed.broadcast` contract: every rank's buffer is
overwritten with the source rank's buffer. -/
def dist_broadcast (vals : List ℚ) (src : ℕ) : List ℚ :=
  vals.map (fun _ => vals.getD src 0)

/-- Per-rank local `val_ppl` after
`dist.broadcast(val_ppl, src=model.world_size - 1)` (src/main.py line 219). -/
def val_ppl_post (world_size : ℕ) (score : ℚ) : List ℚ :=
  dist_broadcast (val_ppl_pre world_size score) (world_size - 1)

/-- How many times rank `r` runs `evaluate` inside one epoch: the call is
guarded by `model.rank == model.world_size - 1` (src/main.py line 208). -/
def evalCount (world_size r : ℕ) : ℕ :=
  if r = world_size - 1 then 1 else 0

/-- One micro-batch as produced by `process_data`: input ids, target ids and
per-example lengths. -/
structure Batch where
  data : TokenBatch
  target : TokenBatch
  length : List ℕ
  deriving DecidableEq

/-- The state `evaluate` can see or touch: the in-memory pipeline model
passed as argument (its parameters and train/eval mode) and the checkpoint
fileset on disk at `model_path`. -/
structure EvalWorld where
  pipeParams : List ℚ
  pipeTraining : Bool
  diskParams : List ℚ
  deriving DecidableEq

/-- `cur_length = int(length.data.sum())` accumulated over a data source. -/
def total_length (data_source : List Batch) : ℕ :=
  (data_source.map (fun b => b.length.sum)).sum

/-- `eval_loss` accumulated over a data source:
`eval_loss += loss.item() * cur_length` with
`loss = whole_model(data, target, length)`. -/
def eval_loss (whole_model : RNNModel) (data_source : List Batch) : ℚ :=
  (data_source.map (fun b =>
    RNNModel.forward whole_model b.data b.target b.length * (b.length.sum : ℚ))).sum

/-- `evaluate` (src/main.py lines 172-194).  `mkModel params loss_type` is
the opaque composite of `build_model(use_pipe=False)` followed by
`Pipeline.load_to_original_model` (reading the checkpoint fileset),
`.eval()` and setting `criterion.loss_type`; `expF` is `math.exp`.  The
whole model is built from the on-disk parameters with loss type `'full'`;
the pipeline-model argument is never read, and the returned world is
unchanged.  Dividing by a zero `total_length` raises `ZeroDivisionError`. -/
def evaluate (mkModel : List ℚ → String → RNNModel) (expF : ℚ → ℚ)
    (w : EvalWorld) (model : List ℚ × Bool) (data_source : List Batch) :
    Except String ℚ × EvalWorld :=
  let whole_model := mkModel w.diskParams "full"
  (if total_length data_source = 0 then Except.error "ZeroDivisionError"
   else Except.ok (expF (eval_loss whole_model data_source
      / (total_length data_source : ℚ))), w)

/-- Concrete model builder for witnesses: ignores the checkpoint parameters
and the loss type and yields the toy eval-mode model. -/
def demoMk : List ℚ → String → RNNModel := fun _ _ => evalModel

/-- Concrete world for witnesses. -/
def demoWorld : EvalWorld :=
  { pipeParams := [1], pipeTraining := true, diskParams := [2] }

/-- Concrete one-batch data source for witnesses. -/
def demoData : List Batch := [{ data := [[1]], target := [[0]], length := [1] }]

/-- An IEEE scalar as the spec's error taxonomy sees it: finite, NaN or
infinite. -/
inductive FloatVal where
  | finite : ℚ → FloatVal
  | nan : FloatVal
  | posInf : FloatVal
  | negInf : FloatVal
  deriving DecidableEq

/-- Finiteness test: NaN and the infinities are the non-finite values. -/
def FloatVal.isFinite : FloatVal → Bool
  | FloatVal.finite _ => true
  | _ => false

/-- Abort context required by spec section 7: epoch, batch index, rank. -/
structure BatchError where
  epoch : ℕ
  batchIdx : ℕ
  rank : ℕ
  deriving DecidableEq

/-- Modelled from the spec: the loss handed to the training loop by
`pipeline_model.Pipeline.forward` (pipeline_model.py is not under src/).
Spec sections 4.2 and 7: a NaN/Inf loss is fatal for that batch — abort with
context (epoch, batch index, rank), do not silently proceed. -/
def pipelineLoss (computed : FloatVal) (epoch batchIdx rank : ℕ) :
    Except BatchError ℚ :=
  match computed with
  | FloatVal.finite q => Except.ok q
  | _ => Except.error { epoch := epoch, batchIdx := batchIdx, rank := rank }

/-- Accumulator state of one rank inside `train` (src/main.py lines 121-169):
`total_loss` (accumulated on the terminal rank only) and the number of
optimizer steps taken. -/
structure TrainState where
  total_loss : ℚ
  optimizerSteps : ℕ
  deriving DecidableEq

/-- One iteration of the training loop (src/main.py lines 131-154): obtain
the batch loss from the pipeline, then clip gradients, step the optimizer
and, on the terminal rank, accumulate `loss.item()`.  A batch whose loss is
NaN/Inf aborts before any of that happens. -/
def train_batch (computed : FloatVal) (epoch batchIdx rank world_size : ℕ)
    (st : TrainState) : Except BatchError TrainState :=
  match pipelineLoss computed epoch batchIdx rank with
  | Except.error e => Except.error e
  | Except.ok l =>
    Except.ok
      { total_loss := if rank = world_size - 1 then st.total_loss + l else st.total_loss,
        optimizerSteps := st.optimizerSteps + 1 }

/-- Selecting a loss row through the prefix mask
`[t < l for t in range(m)]` keeps the first `l` of the row's first `m`
entries. -/
theorem select_row_range (row : List ℚ) : ∀ (l m : ℕ),
    select_row row ((List.range m).map fun t => decide (t < l))
      = (row.take m).take l := by
  induction row with
  | nil => intro l m; simp [select_row]
  | cons a row ih =>
    intro l m
    cases m with
    | zero => simp [select_row]
    | succ m =>
      rw [List.range_succ_eq_map, List.map_cons, List.map_map]
      cases l with
      | zero =>
        have h0 : decide ((0 : ℕ) < 0) = false := rfl
        have hfun : ((fun t => decide (t < (0 : ℕ))) ∘ Nat.succ)
            = fun t => decide (t < (0 : ℕ)) := by
          funext t; simp
        rw [hfun, h0]
        rw [show select_row (a :: row)
              (false :: ((List.range m).map fun t => decide (t < (0 : ℕ))))
            = select_row row ((List.range m).map fun t => decide (t < (0 : ℕ)))
          from rfl]
        rw [ih 0 m]
        simp
      | succ l =>
        have h1 : decide (0 < l + 1) = true := by simp
        have hfun : ((fun t => decide (t < l + 1)) ∘ Nat.succ)
            = fun t => decide (t < l) := by
          funext t; simp [Nat.succ_lt_succ_iff]
        rw [hfun, h1]
        simp [select_row, ih l m]

/-- `masked_select` through a `get_mask` mask keeps, from each loss row, the
first `length[i]` of the row's first `max_len` entries. -/
theorem masked_select_prefixes (loss : Tensor2) : ∀ (length : List ℕ) (m : ℕ),
    masked_select loss (get_mask length m) = selected_prefixes loss length m := by
  induction loss with
  | nil => intro length m; cases length <;> rfl
  | cons r rs ih =>
    intro length m
    cases length with
    | nil => rfl
    | cons l ls =>
      have hmask : get_mask (l :: ls) m
          = ((List.range m).map fun t => decide (t < l)) :: get_mask ls m := rfl
      rw [hmask]
      show select_row r ((List.range m).map fun t => decide (t < l))
            ++ masked_select rs (get_mask ls m)
          = (r.take m).take l ++ selected_prefixes rs ls m
      rw [select_row_range, ih]

/-- The value of the pre-broadcast buffer at a valid rank. -/
theorem val_ppl_pre_getD (world_size r : ℕ) (score : ℚ) (hr : r < world_size) :
    (val_ppl_pre world_size score).getD r 0
      = if r = world_size - 1 then score else 1000 := by
  unfold val_ppl_pre
  rw [List.getD_eq_getElem?_getD, List.getElem?_map, List.getElem?_range hr]
  rfl

/-- After a broadcast, every valid position holds the source's value. -/
theorem dist_broadcast_getD (vals : List ℚ) (src r : ℕ) (hr : r < vals.length) :
    (dist_broadcast vals src).getD r 0 = vals.getD src 0 := by
  unfold dist_broadcast
  rw [List.getD_eq_getElem?_getD, List.getElem?_map, List.getElem?_eq_getElem hr]
  rfl

/-- C1 counterexample: with world_size 1 and a non-identity (train-mode)
dropout, the stage-list execution `Layer1, Layer3, proj, Layer2` and the
unpartitioned `RNNModel.forward` disagree on the same batch with the same
weights and the same realized dropout behaviour, because the stage list
omits the dropout that `RNNModel._rnn` applies after the projection.
Here the pipeline loss is 2 while the full-model loss is 4. -/
theorem pipeline_w1_cex :
    pipelineRunW1 cexModel [[1]] [[0]] [1]
      ≠ RNNModel.forward cexModel [[1]] [[0]] [1] := by
  have h1 : pipelineRunW1 cexModel [[1]] [[0]] [1] = 2 := by
    norm_num [pipelineRunW1, pipeline_activation, Layer1.forward, Layer3.forward,
      Layer2.forward, cexModel, cexDrop, toyEncoder, toyRnn, toyCriterion,
      masked_select, select_row, get_mask, size1, mean, List.range_succ]
  have h2 : RNNModel.forward cexModel [[1]] [[0]] [1] = 4 := by
    norm_num [RNNModel.forward, RNNModel.rnnBody, cexModel, cexDrop, toyEncoder,
      toyRnn, toyCriterion, masked_select, select_row, get_mask, size1, mean,
      List.range_succ]
  rw [h1, h2]
  norm_num

/-- C1 (amended): with world_size 1, identity dropout (dropout rate 0 or
eval mode) and a stage chain that preserves the input's time dimension, the
pipeline loss equals the unpartitioned `RNNModel.forward` loss exactly. -/
theorem pipeline_w1_loss_neutral (m : RNNModel) (input target : TokenBatch)
    (length : List ℕ) (hdrop : ∀ x, m.drop x = x)
    (hsize : size1 (pipeline_activation m input) = size1 input) :
    pipelineRunW1 m input target length = RNNModel.forward m input target length := by
  simp only [pipelineRunW1, pipeline_activation, Layer1.forward, Layer3.forward,
    Layer2.forward, RNNModel.forward, RNNModel.rnnBody, hdrop] at hsize ⊢
  rw [hsize]

/-- C1 witness: a concrete eval-mode model on which the amended statement's
hypotheses hold and the two losses coincide. -/
theorem pipeline_w1_loss_neutral_witness :
    pipelineRunW1 evalModel [[1]] [[0]] [1]
      = RNNModel.forward evalModel [[1]] [[0]] [1] :=
  pipeline_w1_loss_neutral evalModel [[1]] [[0]] [1] (fun _ => rfl) (by decide)

/-- C2: the `.best` fileset is written unconditionally on the first epoch
(`best_val_ppl` is `None`), and afterwards exactly when the broadcast score
is strictly lower than the recorded (positive) best — an equal score does
not re-promote; over the score sequence [120, 95, 130, 95] promotion happens
only at the first and second epochs. -/
theorem best_promotion_strict :
    (∀ v : ℚ, Event.save_best ∈ (run_epoch 1 0 v none).trace) ∧
    (∀ v b : ℚ, 0 < b →
      (Event.save_best ∈ (run_epoch 1 0 v (some b)).trace ↔ v < b)) ∧
    best_updates 1 0 none [120, 95, 130, 95] = [true, true, false, false] := by
  refine ⟨fun v => ?_, fun v b hb => ?_, by decide⟩
  · simp [run_epoch, promoteCond]
  · by_cases hvb : v < b
    · simp [run_epoch, promoteCond, hb.ne', hvb]
    · simp [run_epoch, promoteCond, hb.ne', hvb]

/-- C2 witness: at score 95 against recorded best 120, promotion happens. -/
theorem best_promotion_strict_witness :
    Event.save_best ∈ (run_epoch 1 0 95 (some 120)).trace ↔ (95 : ℚ) < 120 :=
  best_promotion_strict.2.1 95 120 (by decide)

/-- C3: `RNNModel.forward` returns the mean of the loss entries selected by
the validity mask `mask[i, t] = t < length[i]`; the selection keeps exactly
the first `length[i]` entries of each loss row (padding positions are
discarded); for `length = [3, 0, 5]` with `max_len = 5` exactly 8 positions
are selected, and a zero-length example contributes none. -/
theorem forward_masked_mean :
    (∀ (m : RNNModel) (input target : TokenBatch) (length : List ℕ),
      RNNModel.forward m input target length
        = mean (masked_select (m.criterion target (RNNModel.rnnBody m input))
            (get_mask length (size1 input)))) ∧
    (∀ (loss : Tensor2) (length : List ℕ) (max_len : ℕ),
      masked_select loss (get_mask length max_len)
        = selected_prefixes loss length max_len) ∧
    (masked_select demoLoss (get_mask [3, 0, 5] 5)).length = 8 ∧
    masked_select [demoRow] (get_mask [0] 5) = [] := by
  refine ⟨fun m input target length => rfl,
    fun loss length max_len => masked_select_prefixes loss length max_len,
    by decide, by decide⟩

/-- C4: in every epoch the validation perplexity is computed exactly once,
by the terminal rank only; after the broadcast from the terminal rank every
rank's local copy equals the terminal rank's score, so every rank's
best-checkpoint decision is computed from that same value. -/
theorem validation_broadcast_agree (world_size : ℕ) (score : ℚ)
    (best : Option ℚ) (r : ℕ) (hW : 0 < world_size) (hr : r < world_size) :
    (val_ppl_post world_size score).getD r 0 = score ∧
    ((List.range world_size).map (fun k => evalCount world_size k)).sum = 1 ∧
    promoteCond best ((val_ppl_post world_size score).getD r 0)
      = promoteCond best score := by
  have hlen : r < (val_ppl_pre world_size score).length := by
    simpa [val_ppl_pre] using hr
  have h1 : (val_ppl_post world_size score).getD r 0 = score := by
    unfold val_ppl_post
    rw [dist_broadcast_getD _ _ _ hlen,
      val_ppl_pre_getD _ _ _ (Nat.sub_lt hW Nat.one_pos), if_pos rfl]
  refine ⟨h1, ?_, by rw [h1]⟩
  cases world_size with
  | zero => exact absurd hW (by simp)
  | succ n =>
    have hz : ∀ x ∈ (List.range n).map (fun k => evalCount (n + 1) k), x = 0 := by
      intro x hx
      obtain ⟨k, hk, rfl⟩ := List.mem_map.mp hx
      have hkn : k < n := List.mem_range.mp hk
      simp only [evalCount, Nat.add_sub_cancel]
      rw [if_neg (Nat.ne_of_lt hkn)]
    rw [List.range_succ, List.map_append, List.sum_append, List.sum_eq_zero hz]
    simp [evalCount]

/-- C4 witness: with world_size 2 and terminal score 77, rank 1's
post-broadcast copy is 77, evaluation ran once, and the promotion decision
at rank 1 matches the decision on the terminal score. -/
theorem validation_broadcast_agree_witness :
    (val_ppl_post 2 77).getD 1 0 = 77 ∧
    ((List.range 2).map (fun k => evalCount 2 k)).sum = 1 ∧
    promoteCond (some 50) ((val_ppl_post 2 77).getD 1 0)
      = promoteCond (some 50) 77 :=
  validation_broadcast_agree 2 77 (some 50) 1 (by decide) (by decide)

/-- C5 counterexample: in an epoch whose score is not a new best (score 100
against recorded best 50, terminal rank of world_size 1) a checkpoint write
still occurs — the unconditional `model.save(model_path)` between the
barrier and evaluation — even though no best-promotion happens, refuting
"no checkpoint write occurs at any other point in the epoch". -/
theorem run_epoch_extra_save_cex :
    (run_epoch 1 0 100 (some 50)).trace.any isCheckpointWrite = true ∧
    Event.save_best ∉ (run_epoch 1 0 100 (some 50)).trace := by
  decide

/-- C5 (amended): every epoch executes exactly TRAIN, BARRIER, an
unconditional raw checkpoint save, EVALUATE on the terminal rank only,
BROADCAST, then the `.best` checkpoint save exactly when the score is best;
the raw save after the barrier is the only other checkpoint write. -/
theorem run_epoch_sequence (world_size rank : ℕ) (score : ℚ)
    (best : Option ℚ) :
    (run_epoch world_size rank score best).trace
      = [Event.train, Event.barrier, Event.save_raw]
        ++ (if rank = world_size - 1 then [Event.evaluate] else [])
        ++ [Event.broadcast]
        ++ (if promoteCond best score then [Event.save_best] else []) ∧
    (Event.save_best ∈ (run_epoch world_size rank score best).trace
      ↔ promoteCond best score = true) ∧
    (Event.evaluate ∈ (run_epoch world_size rank score best).trace
      ↔ rank = world_size - 1) ∧
    (run_epoch world_size rank score best).best
      = (if promoteCond best score then some score else best) := by
  refine ⟨rfl, ?_, ?_, rfl⟩ <;>
    · unfold run_epoch
      split_ifs <;> simp_all

/-- C6: `evaluate` builds a fresh unpartitioned model from the on-disk
checkpoint parameters, runs it with loss type `'full'`, and returns the
exponential of the length-weighted mean per-token loss
(sum of per-batch loss times batch length, divided by total length). -/
theorem evaluate_full_weighted_mean (mkModel : List ℚ → String → RNNModel)
    (expF : ℚ → ℚ) (w : EvalWorld) (model : List ℚ × Bool)
    (data_source : List Batch) (h : total_length data_source ≠ 0) :
    (evaluate mkModel expF w model data_source).1
      = Except.ok (expF (eval_loss (mkModel w.diskParams "full") data_source
          / (total_length data_source : ℚ))) := by
  simp [evaluate, h]

/-- C6 witness: on a concrete one-batch data source the hypotheses hold and
the perplexity has the stated form. -/
theorem evaluate_full_weighted_mean_witness :
    (evaluate demoMk (fun q => q) demoWorld ([0], false) demoData).1
      = Except.ok ((fun q => q) (eval_loss (demoMk demoWorld.diskParams "full") demoData
          / (total_length demoData : ℚ))) :=
  evaluate_full_weighted_mean demoMk (fun q => q) demoWorld ([0], false) demoData
    (by decide)

/-- C7: a training micro-batch whose computed loss is NaN or Inf aborts with
an error carrying the epoch, batch index and rank, instead of proceeding to
the optimizer step and loss accumulation. -/
theorem train_batch_nonfinite_aborts (computed : FloatVal)
    (epoch batchIdx rank world_size : ℕ) (st : TrainState)
    (h : computed.isFinite = false) :
    train_batch computed epoch batchIdx rank world_size st
      = Except.error { epoch := epoch, batchIdx := batchIdx, rank := rank } := by
  cases computed with
  | finite q => simp [FloatVal.isFinite] at h
  | nan => rfl
  | posInf => rfl
  | negInf => rfl

/-- C7 witness: a NaN loss at epoch 3, batch 7, rank 0 aborts with that
context. -/
theorem train_batch_nonfinite_aborts_witness :
    train_batch FloatVal.nan 3 7 0 2 { total_loss := 0, optimizerSteps := 0 }
      = Except.error { epoch := 3, batchIdx := 7, rank := 0 } :=
  train_batch_nonfinite_aborts FloatVal.nan 3 7 0 2
    { total_loss := 0, optimizerSteps := 0 } rfl

/-- C8: `evaluate` ignores the pipeline-model argument entirely — its result
depends only on the on-disk checkpoint parameters and the data — and it
returns the in-memory world (training model parameters and mode) unchanged. -/
theorem evaluate_frame (mkModel : List ℚ → String → RNNModel) (expF : ℚ → ℚ)
    (w w₂ : EvalWorld) (model model₂ : List ℚ × Bool)
    (data_source : List Batch) (h : w.diskParams = w₂.diskParams) :
    (evaluate mkModel expF w model data_source).1
      = (evaluate mkModel expF w₂ model₂ data_source).1 ∧
    (evaluate mkModel expF w model data_source).2 = w := by
  constructor
  · simp [evaluate, h]
  · rfl

/-- C8 witness: two worlds that differ in their in-memory pipeline model but
share the checkpoint produce the same result, and the world is returned
unchanged. -/
theorem evaluate_frame_witness :
    ((evaluate demoMk (fun q => q) demoWorld ([5], true) demoData).1
      = (evaluate demoMk (fun q => q)
          { pipeParams := [9, 9], pipeTraining := false, diskParams := [2] }
          ([6], false) demoData).1) ∧
    (evaluate demoMk (fun q => q) demoWorld ([5], true) demoData).2 = demoWorld :=
  evaluate_frame demoMk (fun q => q) demoWorld
    { pipeParams := [9, 9], pipeTraining := false, diskParams := [2] }
    ([5], true) ([6], false) demoData rfl

/-- C9: on an empty evaluation data source `total_length` is 0 and
`evaluate` raises a division-by-zero error instead of returning a
perplexity. -/
theorem evaluate_empty_raises (mkModel : List ℚ → String → RNNModel)
    (expF : ℚ → ℚ) (w : EvalWorld) (model : List ℚ × Bool) :
    (evaluate mkModel expF w model []).1 = Except.error "ZeroDivisionError" := rfl

/-- C10: the terminal loss stage `Layer2` derives the mask's maximum length
from the time dimension of the incoming activation (`input.size(1)`), and
computes the masked loss from only the activation, the target ids and the
length vector; on a concrete batch whose activation has 2 time steps while
the raw input has 1, using the raw input's size would give a different
loss. -/
theorem layer2_mask_from_activation :
    (∀ (criterion : TokenBatch → Tensor3 → Tensor2) (input : Tensor3)
      (target : TokenBatch) (length : List ℕ),
      Layer2.forward criterion input target length
        = mean (masked_select (criterion target input)
            (get_mask length (size1 input)))) ∧
    Layer2.forward toyCriterion [[[5], [7]]] [[0]] [2]
      ≠ mean (masked_select (toyCriterion [[0]] [[[5], [7]]])
          (get_mask [2] (size1 ([[0]] : TokenBatch)))) := by
  refine ⟨fun criterion input target length => rfl, ?_⟩
  have hAct : Layer2.forward toyCriterion [[[5], [7]]] [[0]] [2] = 6 := by
    norm_num [Layer2.forward, toyCriterion, masked_select, select_row, get_mask,
      size1, mean, List.range_succ]
  have hRaw : mean (masked_select (toyCriterion [[0]] [[[5], [7]]])
      (get_mask [2] (size1 ([[0]] : TokenBatch)))) = 5 := by
    norm_num [toyCriterion, masked_select, select_row, get_mask, size1, mean,
      List.range_succ]
  rw [hAct, hRaw]
  norm_num

end PytorchNCE
